import Mathlib

/-!
Verification of the aosbot-fastapi data-access layer
(`src/database/airtable_connect.py`) and the API-key guard (`src/main.py`).

The Python code is shallowly embedded:
  * an Airtable record is an opaque identifier plus an association list of
    field values (`AtRecord`), mirroring `record['id']` / `record['fields']`;
  * Python values appearing in fields are `FieldVal` (string, list of
    strings, boolean); a missing field is `Option.none`, matching
    `fields.get(col)` returning `None`;
  * remote calls are inputs: the result of `self.at.get(...)` is passed in
    as `Except String (List AtRecord)` (`.error` models a raised exception),
    the result of `self.at.update(...)` as an oracle
    `String → Except String (List (String × FieldVal))`, and the result of
    `requests.post(...)` as `Except String HttpResponse`;
  * remote writes and log lines the code performs are collected in an
    effect trace (`Eff`), so "performs no remote write" is "the trace holds
    no `Eff.update`";
  * `unicodedata.normalize('NFKC', s)` is modelled by `nfkc`, canonical
    composition restricted to Latin letters followed by the combining acute
    accent U+0301 (the only code points the properties exercise); on all
    other characters it is the identity, as NFKC is on plain ASCII.
-/

namespace AosBot

/-- A Python value stored in an Airtable record field: a string, a list of
strings, or a boolean.  A missing field is represented by `Option.none`
outside this type, matching `dict.get` returning `None`. -/
inductive FieldVal where
  | str (s : String)
  | list (l : List String)
  | bool (b : Bool)
  deriving DecidableEq, Repr

/-- One Airtable record as the Python code sees it: `record['id']` and
`record['fields']` (an association list from column name to value). -/
structure AtRecord where
  id : String
  fields : List (String × FieldVal)
  deriving DecidableEq, Repr

/-- `fields.get(col)`: first value bound to `col`, or `None`. -/
def lookupField (fields : List (String × FieldVal)) (col : String) : Option FieldVal :=
  match fields with
  | [] => none
  | (c, v) :: rest => if c = col then some v else lookupField rest col

/-- Python truthiness of an optional field value: `None`, `""`, `[]` and
`False` are falsy, everything else truthy. -/
def pyTruthy : Option FieldVal → Bool
  | none => false
  | some (.str s) => !(s = "")
  | some (.list l) => !l.isEmpty
  | some (.bool b) => b

/-- Canonical composition of a Latin letter with a following combining acute
accent (U+0301), the fragment of NFKC the repository's comparisons exercise. -/
def composeAcute : Char → Option Char
  | 'a' => some 'á'
  | 'e' => some 'é'
  | 'i' => some 'í'
  | 'o' => some 'ó'
  | 'u' => some 'ú'
  | 'A' => some 'Á'
  | 'E' => some 'É'
  | 'I' => some 'Í'
  | 'O' => some 'Ó'
  | 'U' => some 'Ú'
  | _ => none

/-- NFKC on a character list, restricted to composing base letter +
combining acute; identity elsewhere (NFKC is the identity on ASCII). -/
def nfkcChars : List Char → List Char
  | [] => []
  | [c] => [c]
  | c :: c2 :: rest =>
    if c2 = '\u0301' then
      match composeAcute c with
      | some d => d :: nfkcChars rest
      | none => c :: nfkcChars (c2 :: rest)
    else c :: nfkcChars (c2 :: rest)

/-- Model of `unicodedata.normalize('NFKC', s)` (see `nfkcChars`). -/
def nfkc (s : String) : String :=
  String.mk (nfkcChars s.data)

/-- The idiom `x = unicodedata.normalize('NFKC', x) if x else None` applied
to `fields.get(col)`: falsy values become `None` without being normalized;
a truthy non-string raises `TypeError` (modelled as `.error`). -/
def pyNormStr : Option FieldVal → Except String (Option String)
  | none => .ok none
  | some (.str s) => if s = "" then .ok none else .ok (some (nfkc s))
  | some (.list l) => if l.isEmpty then .ok none else .error "TypeError: normalize expects str"
  | some (.bool b) => if b then .error "TypeError: normalize expects str" else .ok none

/-- `needle` begins `hay` (character lists). -/
def charsPfx : List Char → List Char → Bool
  | [], _ => true
  | _ :: _, [] => false
  | a :: as, b :: bs => a = b && charsPfx as bs

/-- `needle` occurs contiguously in `hay` (character lists). -/
def charsSub (needle : List Char) : List Char → Bool
  | [] => charsPfx needle []
  | b :: bs => charsPfx needle (b :: bs) || charsSub needle bs

/-- Python `needle in hay` for strings: substring containment. -/
def strIn (needle hay : String) : Bool :=
  charsSub needle.data hay.data

/-- Python `cid in v` where `v` is the value of the id field:
substring test on a string, membership on a list, `TypeError` on `None`
(missing field) or a boolean — neither is iterable. -/
def pyIn (cid : String) : Option FieldVal → Except String Bool
  | none => .error "TypeError: argument of type NoneType is not iterable"
  | some (.str s) => .ok (strIn cid s)
  | some (.list l) => .ok (l.contains cid)
  | some (.bool _) => .error "TypeError: argument of type bool is not iterable"

/-- A query `(client_full_name, client_id)`. -/
structure Query where
  fullName : String
  clientId : String
  deriving DecidableEq, Repr

/-- What one loop iteration of `get_record_id` does with a record:
continue the scan, raise (caught by the surrounding `except`), or return. -/
inductive ScanStep where
  | cont
  | raise (e : String)
  | found (recId : String)
  deriving DecidableEq, Repr

/-- One iteration of the `for record in records['records']` loop of
`get_record_id` (airtable_connect.py lines 61-71): normalize the name field,
compare it to the query name, and — only if equal, Python's `and`
short-circuits — test `client_id in client_ids`, where `client_ids` is the
raw id field. -/
def gri_step (idCol nameCol : String) (q : Query) (r : AtRecord) : ScanStep :=
  match pyNormStr (lookupField r.fields nameCol) with
  | .error e => .raise e
  | .ok name =>
    if name = some q.fullName then
      match pyIn q.clientId (lookupField r.fields idCol) with
      | .error e => .raise e
      | .ok true => .found r.id
      | .ok false => .cont
    else .cont

/-- The scan loop of `get_record_id`: falling off the end returns `None`;
a raised exception is caught by the `except` clause, which also returns
`None` (lines 73-75). -/
def gri_go (idCol nameCol : String) (q : Query) : List AtRecord → Option String
  | [] => none
  | r :: rs =>
    match gri_step idCol nameCol q r with
    | .cont => gri_go idCol nameCol q rs
    | .raise _ => none
    | .found rid => some rid

/-- `get_record_id(table_id, id_column, name_column, query)` over the result
of the remote `self.at.get` call (`.error` = the call raised; the `except`
swallows it and the function returns `None`). -/
def get_record_id (remote : Except String (List AtRecord))
    (idCol nameCol : String) (q : Query) : Option String :=
  match remote with
  | .error _ => none
  | .ok records => gri_go idCol nameCol q records

/-- A remote side effect or log line the code performs, in order. -/
inductive Eff where
  | update (recId : String) (column : String)
  | comment (recId : String) (text : String)
  | log (msg : String)
  deriving DecidableEq, Repr

/-- `Eff.update` entries: remote field writes. -/
def isUpdate : Eff → Bool
  | .update _ _ => true
  | _ => false

/-- `Eff.comment` entries: remote comment posts. -/
def isComment : Eff → Bool
  | .comment _ _ => true
  | _ => false

/-- `str(v)` as embedded in the f-string log line. -/
def pyStr : FieldVal → String
  | .str s => s
  | .list l => String.intercalate ", " l
  | .bool b => if b then "True" else "False"

/-- What one iteration of the `verify_and_update` loop does: continue,
raise, or return `True` with the effects performed so far. -/
inductive VStep where
  | cont
  | raise (tr : List Eff) (e : String)
  | done (tr : List Eff)
  deriving DecidableEq, Repr

/-- One iteration of the `for record in records` loop of `verify_and_update`
(airtable_connect.py lines 98-112).  Unlike `get_record_id`, BOTH the name
and the id field are normalized before the comparison (so a malformed id
field raises even on a non-matching record), and the id comparison is exact
equality, not containment.  On a match with the update flag falsy, the
remote write `self.at.update(table_id, record['id'], {updateCol: True})` is
performed (its response given by the oracle `upd`; `.error` = the call
raised, in which case whether the server applied the write is unknown and no
`Eff.update` is recorded); the following log line indexes
`response['fields'][name_column]` and raises `KeyError` when that column is
absent from the response — after the write already happened. -/
def vau_step (nameCol idCol updateCol : String)
    (upd : String → Except String (List (String × FieldVal)))
    (q : Query) (r : AtRecord) : VStep :=
  match pyNormStr (lookupField r.fields nameCol) with
  | .error e => .raise [] e
  | .ok name =>
    match pyNormStr (lookupField r.fields idCol) with
    | .error e => .raise [] e
    | .ok idv =>
      if name = some q.fullName ∧ idv = some q.clientId then
        if pyTruthy (lookupField r.fields updateCol) then .done []
        else
          match upd r.id with
          | .error e => .raise [] e
          | .ok respFields =>
            match lookupField respFields nameCol with
            | none => .raise [.update r.id updateCol] "KeyError"
            | some v =>
              .done [.update r.id updateCol,
                     .log ("Update done on Airtable: " ++ pyStr v)]
      else .cont

/-- The scan loop of `verify_and_update`: falling off the end logs
"Record not found" and returns `False` (lines 114-115). -/
def vau_go (nameCol idCol updateCol : String)
    (upd : String → Except String (List (String × FieldVal)))
    (q : Query) : List AtRecord → List Eff × Except String Bool
  | [] => ([.log ("Record not found: " ++ q.fullName ++ ", " ++ q.clientId)], .ok false)
  | r :: rs =>
    match vau_step nameCol idCol updateCol upd q r with
    | .cont => vau_go nameCol idCol updateCol upd q rs
    | .raise tr e => (tr, .error e)
    | .done tr => (tr, .ok true)

/-- `verify_and_update(table_id, name_column, id_column, update_column,
query)`: the surrounding `try/except` converts any raised exception into a
logged line and the return value `False` (lines 117-119), leaving the
effects already performed in place. -/
def verify_and_update (remote : Except String (List AtRecord))
    (nameCol idCol updateCol : String)
    (upd : String → Except String (List (String × FieldVal)))
    (q : Query) : List Eff × Bool :=
  match remote with
  | .error e => ([.log ("Error trying to check update: " ++ e)], false)
  | .ok records =>
    match vau_go nameCol idCol updateCol upd q records with
    | (tr, .ok b) => (tr, b)
    | (tr, .error e) => (tr ++ [.log ("Error trying to check update: " ++ e)], false)

/-- The record-accumulation of `get_table` (airtable_connect.py lines
37-41): start from the first page returned by `self.at.get`, then for each
record yielded by `self.at.iterate` append it only when it is not already
present — `if r not in data['records']` compares WHOLE record dictionaries,
not record identifiers. -/
def get_table_records (firstPage : List AtRecord) (iterated : List AtRecord) :
    List AtRecord :=
  iterated.foldl (fun acc r => if r ∈ acc then acc else acc ++ [r]) firstPage

/-- The column-list extraction of `get_table` (lines 45-49): scan the base
schema for the table, take its field names, `break` at the first hit; a
table absent from the schema leaves the column list empty. -/
def schemaColumns (schema : List (String × List String)) (tableId : String) :
    List String :=
  match schema with
  | [] => []
  | (tid, cols) :: rest => if tid = tableId then cols else schemaColumns rest tableId

/-- `get_table(table_id)`: the accumulated records turned into a data frame
and reindexed to the schema's declared column order (lines 51-54).  Returns
the column list and one row per record, each row listing the record's value
(or `none`) at every schema column, in schema order. -/
def get_table (firstPage iterated : List AtRecord)
    (schema : List (String × List String)) (tableId : String) :
    List String × List (List (Option FieldVal)) :=
  let recs := get_table_records firstPage iterated
  let cols := schemaColumns schema tableId
  (cols, recs.map (fun r => cols.map (fun c => lookupField r.fields c)))

/-- The response of `requests.post` in `create_comment`. -/
structure HttpResponse where
  status : Nat
  text : String
  deriving DecidableEq, Repr

/-- `create_comment(table_id, record_id, comment)` over the result of the
remote `requests.post` call (airtable_connect.py lines 169-175).  The
function has NO try/except: a raised transport exception (`.error`)
propagates to the caller; a completed response yields `True` on status 200
and `False` (with a log line) otherwise. -/
def create_comment (post : Except String HttpResponse) : Except String Bool :=
  match post with
  | .error e => .error e
  | .ok resp => if resp.status = 200 then .ok true else .ok false

/-- `get_api_key` (main.py lines 53-60): a missing `X-API-Key` header raises
HTTP 400, a value other than the configured secret raises HTTP 403,
otherwise the key is returned. -/
def get_api_key (header : Option String) : Except (Nat × String) String :=
  match header with
  | none => .error (400, "X-API-Key header invalid")
  | some k =>
    if ¬ (k = "valid_api_key") then .error (403, "Could not validate credentials")
    else .ok k

/-- `/protected` (main.py lines 66-68): the dependency's HTTP error becomes
the response status; on success the route answers 200 with its message.
Returns (status, body text). -/
def protected_route (header : Option String) : Nat × String :=
  match get_api_key header with
  | .error (s, d) => (s, d)
  | .ok k => (200, "Access granted for user " ++ k)

/-- A cell of the reconciliation tables: a string or a list of strings
(`NaN` / missing is `Option.none` outside this type). -/
inductive PyVal where
  | str (s : String)
  | list (l : List String)
  deriving DecidableEq, Repr

/-- One row of a table as `get_client_database` uses it: the values of the
id column and the name column. -/
structure CRow where
  idv : Option PyVal
  namev : Option PyVal
  deriving DecidableEq, Repr

/-- The unwrap step on the checking table (airtable_connect.py lines
182-187): `x[0] if isinstance(x, list) and len(x) == 1 else x`. -/
def unwrapSingle : Option PyVal → Option PyVal
  | some (.list [x]) => some (.str x)
  | v => v

/-- The join-key build `id + ' | ' + name` (lines 189-190): string
concatenation; any `NaN` or list operand raises `TypeError` (for an
object-dtype pandas column, `+` is the element-wise Python operator). -/
def mkIndex : Option PyVal → Option PyVal → Except String String
  | some (.str a), some (.str b) => .ok (a ++ " | " ++ b)
  | _, _ => .error "TypeError: can only concatenate str to str"

/-- Python `==` on two cells as the per-column `apply` uses it (lines
194-197): equal concrete values compare `True`; any comparison involving
`NaN` (a missing side, in particular the checking side of an unmatched
left-join row) is `False` — even `NaN == NaN`. -/
def pyEqOpt : Option PyVal → Option PyVal → Bool
  | some a, some b => a = b
  | _, _ => false

/-- `get_client_database(main_table_id, checking_table_id, id_column,
name_column)` (lines 177-204) on the two fetched tables, restricted to the
id/name columns the claims concern.  Steps, as in the source: unwrap
single-element lists in the checking table; build the composite key
`id + ' | ' + name` on both sides (raising on malformed cells; the
function's `except` clause re-raises); left-join main onto checking on that
key (a main row with no matching key keeps `NaN` on the checking side, one
with several matches appears once per match); then for each of id/name keep
the main value only when it equals the checking value, else `None`. -/
def get_client_database (mainRows checkingRows : List CRow) :
    Except String (List CRow) := do
  let checkingRows := checkingRows.map
    (fun r => CRow.mk (unwrapSingle r.idv) (unwrapSingle r.namev))
  let mainK ← mainRows.mapM (fun r => do
    let k ← mkIndex r.idv r.namev
    pure (r, k))
  let chkK ← checkingRows.mapM (fun r => do
    let k ← mkIndex r.idv r.namev
    pure (r, k))
  let merged := mainK.flatMap (fun rk =>
    let ms := chkK.filter (fun ck => ck.2 = rk.2)
    if ms.isEmpty then [(rk.1, (none : Option CRow))]
    else ms.map (fun ck => (rk.1, some ck.1)))
  pure (merged.map (fun rc =>
    let cid := rc.2.bind CRow.idv
    let cname := rc.2.bind CRow.namev
    CRow.mk (if pyEqOpt rc.1.idv cid then rc.1.idv else none)
            (if pyEqOpt rc.1.namev cname then rc.1.namev else none)))

/-! ### Concrete fixtures used by witnesses and counterexamples -/

/-- A record whose name matches the query "Ann" but whose id field is absent. -/
def badRecordFixture : AtRecord := ⟨"rec1", [("Name", .str "Ann")]⟩

/-- A record fully matching the query ("Ann", "C1"). -/
def goodRecordFixture : AtRecord := ⟨"rec2", [("Name", .str "Ann"), ("ID", .list ["C1"])]⟩

/-- A record named "José" (stored decomposed: `e` followed by U+0301). -/
def joseRecordFixture : AtRecord := ⟨"rec3", [("Name", .str "José"), ("ID", .list ["J1"])]⟩

/-! ### Lemmas about the `get_record_id` scan -/

/-- Records on which the scan continues can be dropped from the front. -/
theorem gri_go_append (idCol nameCol : String) (q : Query) (pre l : List AtRecord)
    (hpre : ∀ p ∈ pre, gri_step idCol nameCol q p = .cont) :
    gri_go idCol nameCol q (pre ++ l) = gri_go idCol nameCol q l := by
  induction pre with
  | nil => rfl
  | cons p ps ih =>
    have hp := hpre p (by simp)
    simp only [List.cons_append, gri_go, hp]
    exact ih (fun x hx => hpre x (by simp [hx]))

/-- A step on a record whose name normalizes to the query name and whose id
field passes the containment test returns that record. -/
theorem gri_step_found (idCol nameCol : String) (q : Query) (r : AtRecord)
    (hname : pyNormStr (lookupField r.fields nameCol) = .ok (some q.fullName))
    (hid : pyIn q.clientId (lookupField r.fields idCol) = .ok true) :
    gri_step idCol nameCol q r = .found r.id := by
  unfold gri_step
  rw [hname, hid]
  simp

/-- A step can only return a record whose id field passed the containment
test. -/
theorem gri_step_not_found_of_id (idCol nameCol : String) (q : Query) (r : AtRecord)
    (hin : pyIn q.clientId (lookupField r.fields idCol) ≠ .ok true) :
    ∀ rid, gri_step idCol nameCol q r ≠ .found rid := by
  intro rid hfound
  unfold gri_step at hfound
  cases hn : pyNormStr (lookupField r.fields nameCol) with
  | error e => simp only [hn] at hfound; exact ScanStep.noConfusion hfound
  | ok name =>
    simp only [hn] at hfound
    by_cases heq : name = some q.fullName
    · rw [if_pos heq] at hfound
      cases hi : pyIn q.clientId (lookupField r.fields idCol) with
      | error e => simp only [hi] at hfound; exact ScanStep.noConfusion hfound
      | ok b =>
        simp only [hi] at hfound
        cases b with
        | true => exact hin hi
        | false => exact ScanStep.noConfusion hfound
    · rw [if_neg heq] at hfound
      exact ScanStep.noConfusion hfound

/-- A step can only return a record whose normalized name equals the query
name (Python's `and` evaluates the name first). -/
theorem gri_step_not_found_of_name (idCol nameCol : String) (q : Query) (r : AtRecord)
    (hnm : pyNormStr (lookupField r.fields nameCol) ≠ .ok (some q.fullName)) :
    ∀ rid, gri_step idCol nameCol q r ≠ .found rid := by
  intro rid hfound
  unfold gri_step at hfound
  cases hn : pyNormStr (lookupField r.fields nameCol) with
  | error e => simp only [hn] at hfound; exact ScanStep.noConfusion hfound
  | ok name =>
    simp only [hn] at hfound
    by_cases heq : name = some q.fullName
    · exact hnm (heq ▸ hn)
    · rw [if_neg heq] at hfound
      exact ScanStep.noConfusion hfound

/-- If no record's step returns, the scan ends in `None` (either by falling
off the end or through the exception handler). -/
theorem gri_go_none (idCol nameCol : String) (q : Query) (records : List AtRecord)
    (h : ∀ rec ∈ records, ∀ rid, gri_step idCol nameCol q rec ≠ .found rid) :
    gri_go idCol nameCol q records = none := by
  induction records with
  | nil => rfl
  | cons r rs ih =>
    have hr := h r (by simp)
    have ih2 := ih (fun x hx rid => h x (by simp [hx]) rid)
    cases hs : gri_step idCol nameCol q r with
    | cont => simpa [gri_go, hs] using ih2
    | raise e => simp [gri_go, hs]
    | found rid => exact absurd hs (hr rid)

/-- Claim C4, amended: `get_record_id` returns the identifier of the first
record matching on both normalized name and id containment, provided every
preceding record makes the scan continue (in particular no preceding record
pairs a matching name with an absent id field, which would raise and abort);
it returns none whenever no record's id field contains the query id, and
none whenever no record's NFKC-normalized name equals the query name. -/
theorem C4_find_record (idCol nameCol : String) (q : Query)
    (pre rest : List AtRecord) (r : AtRecord)
    (hpre : ∀ p ∈ pre, gri_step idCol nameCol q p = .cont)
    (hname : pyNormStr (lookupField r.fields nameCol) = .ok (some q.fullName))
    (hid : pyIn q.clientId (lookupField r.fields idCol) = .ok true) :
    get_record_id (.ok (pre ++ r :: rest)) idCol nameCol q = some r.id
    ∧ (∀ records : List AtRecord,
        (∀ rec ∈ records, pyIn q.clientId (lookupField rec.fields idCol) ≠ .ok true) →
        get_record_id (.ok records) idCol nameCol q = none)
    ∧ (∀ records : List AtRecord,
        (∀ rec ∈ records, pyNormStr (lookupField rec.fields nameCol) ≠ .ok (some q.fullName)) →
        get_record_id (.ok records) idCol nameCol q = none) := by
  refine ⟨?_, ?_, ?_⟩
  · show gri_go idCol nameCol q (pre ++ r :: rest) = some r.id
    rw [gri_go_append idCol nameCol q pre _ hpre]
    simp [gri_go, gri_step_found idCol nameCol q r hname hid]
  · intro records h
    exact gri_go_none idCol nameCol q records
      (fun rec hrec => gri_step_not_found_of_id idCol nameCol q rec (h rec hrec))
  · intro records h
    exact gri_go_none idCol nameCol q records
      (fun rec hrec => gri_step_not_found_of_name idCol nameCol q rec (h rec hrec))

/-- A record plainly named "Jose", fully matching the query ("Jose", "J1");
it discharges the hypotheses of `C4_find_record` for that query. -/
def plainJoseFixture : AtRecord := ⟨"rec4", [("Name", .str "Jose"), ("ID", .list ["J1"])]⟩

/-- Witness for C4: on a table holding only the fully matching record the
identifier is returned; a record named "José" (stored decomposed, so
normalization genuinely composes it to "José", not to "Jose") never matches
the query name "Jose", and a table holding only it yields none. -/
theorem C4_witness :
    get_record_id (.ok ([] ++ goodRecordFixture :: [])) "ID" "Name" ⟨"Ann", "C1"⟩
      = some goodRecordFixture.id
    ∧ get_record_id (.ok [joseRecordFixture]) "ID" "Name" ⟨"Jose", "J1"⟩ = none :=
  ⟨(C4_find_record "ID" "Name" ⟨"Ann", "C1"⟩ [] [] goodRecordFixture
      (fun p hp => absurd hp (List.not_mem_nil p)) rfl rfl).1,
   (C4_find_record "ID" "Name" ⟨"Jose", "J1"⟩ [] [] plainJoseFixture
      (fun p hp => absurd hp (List.not_mem_nil p)) rfl rfl).2.2 [joseRecordFixture]
      (by
        intro rec hrec
        simp only [List.mem_singleton] at hrec
        subst hrec
        intro h
        have h0 : (Except.ok (some "Jos\u00e9") : Except String (Option String))
            = Except.ok (some "Jose") := h
        have h1 : ("Jos\u00e9" : String) = "Jose" := Option.some.inj (Except.ok.inj h0)
        exact absurd h1 (by decide))⟩

/-- Counterexample to C4 as stated: the table `[badRecordFixture,
goodRecordFixture]` holds a record matching the query on both fields
(`goodRecordFixture`, returned when scanned alone), yet `get_record_id`
returns none rather than its identifier, because the earlier name-matching
record with an absent id field raises and the handler returns `None`. -/
theorem C4_counterexample :
    get_record_id (.ok [badRecordFixture, goodRecordFixture]) "ID" "Name" ⟨"Ann", "C1"⟩ = none
    ∧ get_record_id (.ok [goodRecordFixture]) "ID" "Name" ⟨"Ann", "C1"⟩ = some "rec2" :=
  ⟨rfl, rfl⟩

/-- Claim C6: when the remote listing call fails, `get_record_id` returns
none and `verify_and_update` returns false — the very results an empty
table (no match) produces, so a remote failure is indistinguishable from
"no record matched" and no error propagates. -/
theorem C6_swallowed_remote_errors (e idCol nameCol updateCol : String) (q : Query)
    (upd : String → Except String (List (String × FieldVal))) :
    get_record_id (.error e) idCol nameCol q = none
    ∧ (verify_and_update (.error e) nameCol idCol updateCol upd q).2 = false
    ∧ get_record_id (.ok []) idCol nameCol q = none
    ∧ (verify_and_update (.ok []) nameCol idCol updateCol upd q).2 = false :=
  ⟨rfl, rfl, rfl, rfl⟩

/-- Claim C7, amended: `create_comment` returns true exactly when the
remote write completes with status 200 and false on any other response
status; however, an exception raised by the remote call itself (there is no
try/except in the function) propagates past the boundary. -/
theorem C7_comment_status (resp : HttpResponse) (e : String) :
    create_comment (.ok resp) = .ok (decide (resp.status = 200))
    ∧ create_comment (.error e) = .error e := by
  refine ⟨?_, rfl⟩
  by_cases h : resp.status = 200 <;> simp [create_comment, h]

/-- Counterexample to C7 as stated: a raising transport call makes
`create_comment` raise rather than return false. -/
theorem C7_counterexample :
    create_comment (.error "ConnectionError") = .error "ConnectionError"
    ∧ create_comment (.error "ConnectionError") ≠ .ok false :=
  ⟨rfl, fun h => Except.noConfusion h⟩

/-- Claim C9: a record whose name NFKC-normalizes to the query name but
whose id field is absent makes the containment test raise; the handler
catches it and the whole function returns none, so any record after it —
including one fully matching the query — is never reached. -/
theorem C9_absent_id_aborts (idCol nameCol : String) (q : Query)
    (r : AtRecord) (rest : List AtRecord)
    (hname : pyNormStr (lookupField r.fields nameCol) = .ok (some q.fullName))
    (hid : lookupField r.fields idCol = none) :
    get_record_id (.ok (r :: rest)) idCol nameCol q = none := by
  show gri_go idCol nameCol q (r :: rest) = none
  have hstep : gri_step idCol nameCol q r
      = .raise "TypeError: argument of type NoneType is not iterable" := by
    unfold gri_step
    rw [hname, hid]
    simp [pyIn]
  simp [gri_go, hstep]

/-- Witness for C9: the aborting record followed by a fully matching one
still yields none. -/
theorem C9_witness :
    get_record_id (.ok (badRecordFixture :: [goodRecordFixture])) "ID" "Name" ⟨"Ann", "C1"⟩
      = none :=
  C9_absent_id_aborts "ID" "Name" ⟨"Ann", "C1"⟩ badRecordFixture [goodRecordFixture] rfl rfl

/-- Claim C10: a missing `X-API-Key` header yields HTTP 400, any value
other than the configured secret yields 403, and the correct value yields a
200 response on `/protected`. -/
theorem C10_api_key_guard (k : String) (hk : k ≠ "valid_api_key") :
    protected_route none = (400, "X-API-Key header invalid")
    ∧ (protected_route (some k)).1 = 403
    ∧ protected_route (some "valid_api_key") = (200, "Access granted for user valid_api_key") := by
  refine ⟨rfl, ?_, rfl⟩
  simp [protected_route, get_api_key, hk]

/-- Witness for C10 at the concrete wrong key "wrong-key". -/
theorem C10_witness :
    protected_route none = (400, "X-API-Key header invalid")
    ∧ (protected_route (some "wrong-key")).1 = 403
    ∧ protected_route (some "valid_api_key") = (200, "Access granted for user valid_api_key") :=
  C10_api_key_guard "wrong-key" (by decide)

/-! ### Lemmas about the `verify_and_update` scan -/

/-- A record fully matching the query ("Bob", "C1"), with the update flag
absent (falsy). -/
def recBobFixture : AtRecord := ⟨"rec1", [("Name", .str "Bob"), ("ID", .str "C1")]⟩

/-- The same record with the update flag already exactly `True`. -/
def recBobFlaggedFixture : AtRecord :=
  ⟨"rec1", [("Name", .str "Bob"), ("ID", .str "C1"), ("Updated", .bool true)]⟩

/-- An update-call response whose fields do contain the name column. -/
def updOkFixture : String → Except String (List (String × FieldVal)) :=
  fun _ => .ok [("Name", .str "Bob"), ("Updated", .bool true)]

/-- An update-call response whose fields lack the name column, so the
following log line raises `KeyError`. -/
def updNoNameFixture : String → Except String (List (String × FieldVal)) :=
  fun _ => .ok [("Updated", .bool true)]

/-- Records on which the scan continues can be dropped from the front. -/
theorem vau_go_append (nameCol idCol updateCol : String)
    (upd : String → Except String (List (String × FieldVal))) (q : Query)
    (pre l : List AtRecord)
    (hpre : ∀ p ∈ pre, vau_step nameCol idCol updateCol upd q p = .cont) :
    vau_go nameCol idCol updateCol upd q (pre ++ l)
      = vau_go nameCol idCol updateCol upd q l := by
  induction pre with
  | nil => rfl
  | cons p ps ih =>
    have hp := hpre p (by simp)
    simp only [List.cons_append, vau_go, hp]
    exact ih (fun x hx => hpre x (by simp [hx]))

/-- On a record matching the query on both normalized fields, the step
reduces to the update-flag branch of the source. -/
theorem vau_step_match (nameCol idCol updateCol : String)
    (upd : String → Except String (List (String × FieldVal))) (q : Query) (r : AtRecord)
    (hname : pyNormStr (lookupField r.fields nameCol) = .ok (some q.fullName))
    (hid : pyNormStr (lookupField r.fields idCol) = .ok (some q.clientId)) :
    vau_step nameCol idCol updateCol upd q r
      = (if pyTruthy (lookupField r.fields updateCol) then VStep.done []
         else
           match upd r.id with
           | .error e => .raise [] e
           | .ok respFields =>
             match lookupField respFields nameCol with
             | none => .raise [.update r.id updateCol] "KeyError"
             | some v =>
               .done [.update r.id updateCol,
                      .log ("Update done on Airtable: " ++ pyStr v)]) := by
  unfold vau_step
  simp [hname, hid]

/-- Claim C5: when the first matching record's update flag is already
exactly `True`, `verify_and_update` performs no remote write (its effect
trace is empty) and still returns true; and whenever a record matches, it
returns true whether or not a write occurred, provided the success path
completes (the update call, if made, returns a response containing the name
column). -/
theorem C5_found_returns_true (nameCol idCol updateCol : String)
    (upd : String → Except String (List (String × FieldVal))) (q : Query)
    (pre rest : List AtRecord) (r : AtRecord)
    (hpre : ∀ p ∈ pre, vau_step nameCol idCol updateCol upd q p = .cont)
    (hname : pyNormStr (lookupField r.fields nameCol) = .ok (some q.fullName))
    (hid : pyNormStr (lookupField r.fields idCol) = .ok (some q.clientId)) :
    (lookupField r.fields updateCol = some (.bool true) →
      verify_and_update (.ok (pre ++ r :: rest)) nameCol idCol updateCol upd q = ([], true))
    ∧ (∀ (respFields : List (String × FieldVal)) (v : FieldVal),
        upd r.id = .ok respFields → lookupField respFields nameCol = some v →
        (verify_and_update (.ok (pre ++ r :: rest)) nameCol idCol updateCol upd q).2 = true) := by
  have hstep := vau_step_match nameCol idCol updateCol upd q r hname hid
  constructor
  · intro hflag
    have ht : pyTruthy (lookupField r.fields updateCol) = true := by rw [hflag]; rfl
    have hs : vau_step nameCol idCol updateCol upd q r = .done [] := by
      rw [hstep, ht]; simp
    simp only [verify_and_update]
    rw [vau_go_append nameCol idCol updateCol upd q pre _ hpre]
    simp [vau_go, hs]
  · intro respFields v hresp hv
    cases ht : pyTruthy (lookupField r.fields updateCol) with
    | true =>
      have hs : vau_step nameCol idCol updateCol upd q r = .done [] := by
        rw [hstep, ht]; simp
      simp only [verify_and_update]
      rw [vau_go_append nameCol idCol updateCol upd q pre _ hpre]
      simp [vau_go, hs]
    | false =>
      have hs : vau_step nameCol idCol updateCol upd q r
          = .done [.update r.id updateCol, .log ("Update done on Airtable: " ++ pyStr v)] := by
        rw [hstep, ht]; simp [hresp, hv]
      simp only [verify_and_update]
      rw [vau_go_append nameCol idCol updateCol upd q pre _ hpre]
      simp [vau_go, hs]

/-- Witness for C5: on the already-flagged record the function performs no
effect at all and returns true. -/
theorem C5_witness :
    verify_and_update (.ok ([] ++ recBobFlaggedFixture :: [])) "Name" "ID" "Updated"
      updOkFixture ⟨"Bob", "C1"⟩ = ([], true) :=
  (C5_found_returns_true "Name" "ID" "Updated" updOkFixture ⟨"Bob", "C1"⟩ [] []
    recBobFlaggedFixture (fun p hp => absurd hp (List.not_mem_nil p)) rfl rfl).1 rfl

/-- An update call that raises (for instance a connection error). -/
def updRaiseFixture : String → Except String (List (String × FieldVal)) :=
  fun _ => .error "ConnectionError"

/-- Counterexample to C5's universal clause: on a table whose record does
match the query (the second conjunct shows the same call returns true when
the update call behaves), a raising update call makes `verify_and_update`
return false — so "whenever a record matches, it returns true" does not
hold unconditionally. -/
theorem C5_counterexample :
    (verify_and_update (.ok [recBobFixture]) "Name" "ID" "Updated" updRaiseFixture
      ⟨"Bob", "C1"⟩).2 = false
    ∧ (verify_and_update (.ok [recBobFixture]) "Name" "ID" "Updated" updOkFixture
      ⟨"Bob", "C1"⟩).2 = true :=
  ⟨rfl, rfl⟩

/-- Claim C2, amended: on the first record matching both normalized fields
with the update flag not already truthy, `verify_and_update` performs
exactly one remote field write and emits one audit log line — it posts NO
remote comment — and returns true (assuming the update call succeeds and
its response contains the name column). -/
theorem C2_one_write_no_comment (nameCol idCol updateCol : String)
    (upd : String → Except String (List (String × FieldVal))) (q : Query)
    (pre rest : List AtRecord) (r : AtRecord)
    (respFields : List (String × FieldVal)) (v : FieldVal)
    (hpre : ∀ p ∈ pre, vau_step nameCol idCol updateCol upd q p = .cont)
    (hname : pyNormStr (lookupField r.fields nameCol) = .ok (some q.fullName))
    (hid : pyNormStr (lookupField r.fields idCol) = .ok (some q.clientId))
    (hflag : pyTruthy (lookupField r.fields updateCol) = false)
    (hresp : upd r.id = .ok respFields)
    (hv : lookupField respFields nameCol = some v) :
    verify_and_update (.ok (pre ++ r :: rest)) nameCol idCol updateCol upd q
      = ([.update r.id updateCol, .log ("Update done on Airtable: " ++ pyStr v)], true)
    ∧ List.countP isUpdate
        (verify_and_update (.ok (pre ++ r :: rest)) nameCol idCol updateCol upd q).1 = 1
    ∧ List.countP isComment
        (verify_and_update (.ok (pre ++ r :: rest)) nameCol idCol updateCol upd q).1 = 0 := by
  have hstep := vau_step_match nameCol idCol updateCol upd q r hname hid
  have hs : vau_step nameCol idCol updateCol upd q r
      = .done [.update r.id updateCol, .log ("Update done on Airtable: " ++ pyStr v)] := by
    rw [hstep, hflag]; simp [hresp, hv]
  have hmain : verify_and_update (.ok (pre ++ r :: rest)) nameCol idCol updateCol upd q
      = ([.update r.id updateCol, .log ("Update done on Airtable: " ++ pyStr v)], true) := by
    simp only [verify_and_update]
    rw [vau_go_append nameCol idCol updateCol upd q pre _ hpre]
    simp [vau_go, hs]
  refine ⟨hmain, ?_, ?_⟩ <;> rw [hmain] <;>
    simp [List.countP_cons, List.countP_nil, isUpdate, isComment]

/-- Witness for C2's amended theorem on the concrete unflagged record. -/
theorem C2_witness :
    verify_and_update (.ok ([] ++ recBobFixture :: [])) "Name" "ID" "Updated"
        updOkFixture ⟨"Bob", "C1"⟩
      = ([.update recBobFixture.id "Updated",
          .log ("Update done on Airtable: " ++ pyStr (.str "Bob"))], true)
    ∧ List.countP isUpdate
        (verify_and_update (.ok ([] ++ recBobFixture :: [])) "Name" "ID" "Updated"
          updOkFixture ⟨"Bob", "C1"⟩).1 = 1
    ∧ List.countP isComment
        (verify_and_update (.ok ([] ++ recBobFixture :: [])) "Name" "ID" "Updated"
          updOkFixture ⟨"Bob", "C1"⟩).1 = 0 :=
  C2_one_write_no_comment "Name" "ID" "Updated" updOkFixture ⟨"Bob", "C1"⟩ [] []
    recBobFixture [("Name", .str "Bob"), ("Updated", .bool true)] (.str "Bob")
    (fun p hp => absurd hp (List.not_mem_nil p)) rfl rfl rfl rfl rfl

/-- Counterexample to C2 as stated: on a matching unflagged record the
function performs its one field write and returns true, but the count of
remote comment posts in its effect trace is zero, not one — the "audit
comment" is only a local log line. -/
theorem C2_counterexample :
    verify_and_update (.ok [recBobFixture]) "Name" "ID" "Updated" updOkFixture ⟨"Bob", "C1"⟩
      = ([.update "rec1" "Updated", .log "Update done on Airtable: Bob"], true)
    ∧ List.countP isComment
        (verify_and_update (.ok [recBobFixture]) "Name" "ID" "Updated" updOkFixture
          ⟨"Bob", "C1"⟩).1 = 0 :=
  ⟨rfl, rfl⟩

/-- Claim C8: a matching record with the update flag false whose remote
write succeeds but whose response lacks the name column makes the log line
raise after the write: the handler returns false even though the remote
table was already modified (the effect trace holds the write). -/
theorem C8_false_after_write :
    (verify_and_update (.ok [recBobFixture]) "Name" "ID" "Updated" updNoNameFixture
      ⟨"Bob", "C1"⟩).2 = false
    ∧ Eff.update "rec1" "Updated" ∈
        (verify_and_update (.ok [recBobFixture]) "Name" "ID" "Updated" updNoNameFixture
          ⟨"Bob", "C1"⟩).1 :=
  ⟨rfl, by decide⟩

/-! ### Lemmas about the `get_table` record accumulation -/

/-- Membership in the dedup-append fold: exactly the starting records and
the iterated records. -/
theorem mem_get_table_fold (iterated : List AtRecord) (acc : List AtRecord) (x : AtRecord) :
    x ∈ iterated.foldl (fun acc r => if r ∈ acc then acc else acc ++ [r]) acc
      ↔ x ∈ acc ∨ x ∈ iterated := by
  induction iterated generalizing acc with
  | nil => simp
  | cons r rs ih =>
    simp only [List.foldl_cons]
    rw [ih]
    by_cases h : r ∈ acc
    · simp only [if_pos h, List.mem_cons]
      have hx : x = r → x ∈ acc := fun e => e ▸ h
      tauto
    · simp only [if_neg h, List.mem_append, List.mem_singleton, List.mem_cons]
      tauto

/-- The dedup-append fold preserves freedom from duplicate records. -/
theorem nodup_get_table_fold (iterated : List AtRecord) (acc : List AtRecord)
    (h : acc.Nodup) :
    (iterated.foldl (fun acc r => if r ∈ acc then acc else acc ++ [r]) acc).Nodup := by
  induction iterated generalizing acc with
  | nil => simpa
  | cons r rs ih =>
    simp only [List.foldl_cons]
    apply ih
    by_cases hr : r ∈ acc
    · simpa [if_pos hr]
    · rw [if_neg hr]
      simp [List.nodup_append, h, hr]

/-- Claim C3, amended: duplicate suppression in `get_table` is by WHOLE
record equality, not by record identifier.  When the two fetches are
consistent — each first-page record reappears verbatim in the full
iteration, the first page repeats nothing, and the full iteration of the
table's N records carries pairwise distinct identifiers — the result has
exactly N records, none sharing an identifier, exactly the iterated
records, and the rows are the records reindexed to the schema's declared
column order. -/
theorem C3_fetch_all (firstPage iterated : List AtRecord)
    (schema : List (String × List String)) (tableId : String)
    (hfp : firstPage.Nodup)
    (hsub : ∀ r ∈ firstPage, r ∈ iterated)
    (hids : (iterated.map AtRecord.id).Nodup) :
    (get_table_records firstPage iterated).length = iterated.length
    ∧ ((get_table_records firstPage iterated).map AtRecord.id).Nodup
    ∧ (∀ x, x ∈ get_table_records firstPage iterated ↔ x ∈ iterated)
    ∧ (get_table firstPage iterated schema tableId).2
        = (get_table_records firstPage iterated).map
            (fun r => (schemaColumns schema tableId).map (fun c => lookupField r.fields c)) := by
  have hit : iterated.Nodup := List.Nodup.of_map AtRecord.id hids
  have hmem : ∀ x, x ∈ get_table_records firstPage iterated ↔ x ∈ iterated := by
    intro x
    simp only [get_table_records]
    rw [mem_get_table_fold]
    constructor
    · rintro (hx | hx)
      · exact hsub x hx
      · exact hx
    · exact Or.inr
  have hnodup : (get_table_records firstPage iterated).Nodup :=
    nodup_get_table_fold iterated firstPage hfp
  have hperm : (get_table_records firstPage iterated).Perm iterated :=
    (List.perm_ext_iff_of_nodup hnodup hit).mpr hmem
  refine ⟨hperm.length_eq, ?_, hmem, rfl⟩
  exact hnodup.map_on (fun x hx y hy hxy =>
    List.inj_on_of_nodup_map hids ((hmem x).1 hx) ((hmem y).1 hy) hxy)

/-- First fetch of the record "rec1" (as returned by the initial page). -/
def dupRecA : AtRecord := ⟨"rec1", [("Name", .str "Bob")]⟩

/-- The same record "rec1" as the pagination returns it after a concurrent
edit: identical identifier, different fields. -/
def dupRecB : AtRecord := ⟨"rec1", [("Name", .str "Robert")]⟩

/-- A second record with a fresh identifier. -/
def otherRecFixture : AtRecord := ⟨"rec2", [("Name", .str "Robert")]⟩

/-- Witness for C3 on a consistent two-record fetch. -/
theorem C3_witness :
    (get_table_records [dupRecA] [dupRecA, otherRecFixture]).length
        = [dupRecA, otherRecFixture].length
    ∧ ((get_table_records [dupRecA] [dupRecA, otherRecFixture]).map AtRecord.id).Nodup
    ∧ (∀ x, x ∈ get_table_records [dupRecA] [dupRecA, otherRecFixture]
        ↔ x ∈ [dupRecA, otherRecFixture])
    ∧ (get_table [dupRecA] [dupRecA, otherRecFixture] [("tbl", ["Name"])] "tbl").2
        = (get_table_records [dupRecA] [dupRecA, otherRecFixture]).map
            (fun r => (schemaColumns [("tbl", ["Name"])] "tbl").map
              (fun c => lookupField r.fields c)) :=
  C3_fetch_all [dupRecA] [dupRecA, otherRecFixture] [("tbl", ["Name"])] "tbl"
    (by decide) (by decide) (by decide)

/-- Counterexample to C3 as stated: when the first page and the pagination
return the same identifier with different field contents (the record was
edited between the two remote calls), both versions are kept — the returned
records are NOT duplicate-free by identifier, because the membership test
compares whole records. -/
theorem C3_counterexample :
    get_table_records [dupRecA] [dupRecB] = [dupRecA, dupRecB]
    ∧ dupRecA.id = dupRecB.id
    ∧ dupRecA ≠ dupRecB
    ∧ ¬ ((get_table_records [dupRecA] [dupRecB]).map AtRecord.id).Nodup := by
  refine ⟨by decide, rfl, by decide, by decide⟩

/-- Claim C1, amended: with main row id "A1", name "Bob" and checking row
id "A1", name "Bob", the output row retains both fields; with checking row
id "A1", name "Robert", the output row has BOTH the name and the id set to
null — the left join is on the composite key `id | name`, so the name
mismatch leaves no checking-side values and both per-column comparisons
fail. -/
theorem C1_reconcile :
    get_client_database
        [CRow.mk (some (.str "A1")) (some (.str "Bob"))]
        [CRow.mk (some (.str "A1")) (some (.str "Bob"))]
      = .ok [CRow.mk (some (.str "A1")) (some (.str "Bob"))]
    ∧ get_client_database
        [CRow.mk (some (.str "A1")) (some (.str "Bob"))]
        [CRow.mk (some (.str "A1")) (some (.str "Robert"))]
      = .ok [CRow.mk none none] :=
  ⟨rfl, rfl⟩

/-- Counterexample to C1 as stated: with checking row id "A1", name
"Robert", the output row does NOT retain "A1" in the id field (the result
is the row with both fields null). -/
theorem C1_counterexample :
    get_client_database
        [CRow.mk (some (.str "A1")) (some (.str "Bob"))]
        [CRow.mk (some (.str "A1")) (some (.str "Robert"))]
      ≠ .ok [CRow.mk (some (.str "A1")) none] := by
  intro h
  have h0 : (Except.ok [CRow.mk (none : Option PyVal) (none : Option PyVal)]
      : Except String (List CRow)) = .ok [CRow.mk (some (.str "A1")) none] := h
  have h1 := Except.ok.inj h0
  exact absurd h1 (by decide)

end AosBot
